import Mathlib

/-!
Shallow embedding of internal/api/msg.go, the message-send orchestration core
of open-im-server: canonical envelope construction, the delivery-option
policy, the modified-fields diff engine (with its lazily cached field
descriptor list), and the dispatcher paths (single send, business
notification, batch send with send-to-all directory paging, quick send).

External collaborators (the gin request binding, the msg RPC client, base64
and JSON codecs, the user directory client, the validator) are modelled as
explicit function parameters; the ambient current time and the operation
user ID taken from the request context are explicit arguments.
-/

namespace OpenIM

/-- Offline push metadata carried on an envelope (sdkws.OfflinePushInfo). -/
structure OfflinePushInfo where
  title : String
  desc : String
  ex : String
  iOSPushSound : String
  iOSBadgeCount : Bool
  deriving DecidableEq

/-- The canonical message envelope (sdkws.MsgData). The field set and JSON
names follow the protocol schema; the content byte slice is modelled as a
String. Record defaults are the Go zero values of the struct fields. -/
structure MsgData where
  sendID : String := ""
  recvID : String := ""
  groupID : String := ""
  clientMsgID : String := ""
  serverMsgID : String := ""
  senderPlatformID : Int := 0
  senderNickname : String := ""
  senderFaceURL : String := ""
  sessionType : Int := 0
  msgFrom : Int := 0
  contentType : Int := 0
  content : String := ""
  seq : Int := 0
  sendTime : Int := 0
  createTime : Int := 0
  status : Int := 0
  isRead : Bool := false
  options : List (String × Bool) := []
  offlinePushInfo : Option OfflinePushInfo := none
  atUserIDList : List String := []
  attachedInfo : String := ""
  ex : String := ""
  deriving DecidableEq

/-- A protobuf field value as observed through protoreflect.Value, restricted
to the value kinds occurring on MsgData fields. -/
inductive ProtoValue where
  | str (s : String)
  | int (i : Int)
  | bool (b : Bool)
  | bytes (s : String)
  | opts (m : List (String × Bool))
  | push (p : Option OfflinePushInfo)
  | strList (l : List String)
  deriving DecidableEq

/-- A protoreflect field descriptor for MsgData, reduced to what the diff
engine uses: the JSON name and the value accessor. -/
structure FieldDescriptor where
  jsonName : String
  get : MsgData → ProtoValue

/-- The full MsgData field descriptor list, in protocol schema order
(every proto3 field has a JSON name, so none is skipped by HasJSONName). -/
def msgDataFields : List FieldDescriptor :=
  [⟨"sendID", fun m => .str m.sendID⟩,
   ⟨"recvID", fun m => .str m.recvID⟩,
   ⟨"groupID", fun m => .str m.groupID⟩,
   ⟨"clientMsgID", fun m => .str m.clientMsgID⟩,
   ⟨"serverMsgID", fun m => .str m.serverMsgID⟩,
   ⟨"senderPlatformID", fun m => .int m.senderPlatformID⟩,
   ⟨"senderNickname", fun m => .str m.senderNickname⟩,
   ⟨"senderFaceURL", fun m => .str m.senderFaceURL⟩,
   ⟨"sessionType", fun m => .int m.sessionType⟩,
   ⟨"msgFrom", fun m => .int m.msgFrom⟩,
   ⟨"contentType", fun m => .int m.contentType⟩,
   ⟨"content", fun m => .bytes m.content⟩,
   ⟨"seq", fun m => .int m.seq⟩,
   ⟨"sendTime", fun m => .int m.sendTime⟩,
   ⟨"createTime", fun m => .int m.createTime⟩,
   ⟨"status", fun m => .int m.status⟩,
   ⟨"isRead", fun m => .bool m.isRead⟩,
   ⟨"options", fun m => .opts m.options⟩,
   ⟨"offlinePushInfo", fun m => .push m.offlinePushInfo⟩,
   ⟨"atUserIDList", fun m => .strList m.atUserIDList⟩,
   ⟨"attachedInfo", fun m => .str m.attachedInfo⟩,
   ⟨"ex", fun m => .str m.ex⟩]

/-- JSON names of the fields of msg.SendMsgResp, the delivery acknowledgment
structure (serverMsgID, clientMsgID, sendTime, modify): the skip set built by
getMsgDataDescriptor from the acknowledgment descriptor. -/
def sendMsgRespJSONNames : List String :=
  ["serverMsgID", "clientMsgID", "sendTime", "modify"]

/-- The body of the sync.Once in getMsgDataDescriptor: the MsgData field
descriptors whose JSON name does not also appear on msg.SendMsgResp. -/
def computeMsgDataDescriptor : List FieldDescriptor :=
  msgDataFields.filter (fun field => !(sendMsgRespJSONNames.contains field.jsonName))

/-- Call semantics of getMsgDataDescriptor with its sync.Once cache made
explicit: the input is the cache cell (the package-level msgDataDescriptor
variable, none before first use), the output is the returned descriptor list
together with the cache cell after the call. -/
def getMsgDataDescriptor :
    Option (List FieldDescriptor) → List FieldDescriptor × Option (List FieldDescriptor)
  | none => (computeMsgDataDescriptor, some computeMsgDataDescriptor)
  | some cached => (cached, some cached)

/-! Option-flag constants from openimsdk/protocol constant. Only their
distinctness is relied on; the string values follow the protocol package. -/

def IsHistory : String := "history"
def IsPersistent : String := "persistent"
def IsOfflinePush : String := "offlinePush"
def IsConversationUpdate : String := "conversationUpdate"
def IsSenderSync : String := "senderSync"

/-! Numeric constants from openimsdk/protocol constant (session types, msg
origins, content types, platform IDs, send status). Only distinctness of the
values is relied on by this file. -/

def SingleChatType : Int := 1
def ReadGroupChatType : Int := 3
def NotificationChatType : Int := 4
def UserMsgType : Int := 100
def SysMsgType : Int := 200
def Text : Int := 101
def Picture : Int := 102
def Voice : Int := 103
def Video : Int := 104
def File : Int := 105
def AtText : Int := 106
def Custom : Int := 110
def MarkdownText : Int := 115
def OANotification : Int := 1400
def BusinessNotification : Int := 2001
def AdminPlatformID : Int := 8
def MsgSendSuccessed : Int := 2

/-- Modelled from the spec: idutil.GetMsgIDByMD5 (openimsdk/tools, outside
this repository) — the client message ID is a deterministic hash of the
given string, modelled as an injective tagged wrapping of its input. -/
def getMsgIDByMD5 (s : String) : String := "md5:" ++ s

/-- Modelled from the spec: jsonutil.StructToJsonString applied to the raw
caller-supplied content (openimsdk/tools, outside this repository). The raw
content already arrives as JSON text, so re-serialization is the identity. -/
def structToJsonString (content : String) : String := content

/-- Modelled from the spec: serialization of sdkws.NotificationElem with the
given detail text, modelled as an injective tagged wrapping of the detail. -/
def notificationElemJson (detail : String) : String :=
  "NotificationElem:" ++ detail

/-- Modelled from the spec: serialization of the anonymous key/data struct
embedded in a business notification. -/
def keyDataJson (key data : String) : String :=
  "KeyData:" ++ key ++ ":" ++ data

/-- Modelled from the spec: datautil.SetSwitchFromOptions (openimsdk/tools,
outside this repository) writes the named switch into the option map;
the Go map write is modelled as an association-list update. -/
def setSwitchFromOptions : List (String × Bool) → String → Bool → List (String × Bool)
  | [], key, value => [(key, value)]
  | kv :: rest, key, value =>
    if kv.1 = key then (key, value) :: rest
    else kv :: setSwitchFromOptions rest key value

/-- MessageApi.SetOptions: force the history-persistence, durable-storage,
sender-side sync and conversation-update switches to the given value. -/
def SetOptions (options : List (String × Bool)) (value : Bool) : List (String × Bool) :=
  setSwitchFromOptions
    (setSwitchFromOptions
      (setSwitchFromOptions
        (setSwitchFromOptions options IsHistory value)
        IsPersistent value)
      IsSenderSync value)
    IsConversationUpdate value

/-- The decoded content payload (the any-typed data produced by the content
schema registry in getSendMsgReq), a tagged union over the apistruct
element types. -/
inductive DecodedData where
  | textElem (text : String)
  | pictureElem
  | soundElem
  | videoElem
  | fileElem
  | atElem (atUserList : List String) (text : String)
  | customElem
  | markdownTextElem (content : String)
  | oaNotificationElem
  deriving DecidableEq

/-- The caller-facing send parameters (apistruct.SendMsg); the raw content
map is modelled as its JSON text. -/
structure SendMsg where
  sendID : String := ""
  groupID : String := ""
  senderNickname : String := ""
  senderFaceURL : String := ""
  senderPlatformID : Int := 0
  content : String := ""
  contentType : Int := 0
  sessionType : Int := 0
  isOnlineOnly : Bool := false
  notOfflinePush : Bool := false
  sendTime : Int := 0
  offlinePushInfo : Option OfflinePushInfo := none
  ex : String := ""
  deriving DecidableEq

/-- The wire request submitted to the delivery backend (msg.SendMsgReq). -/
structure SendMsgReq where
  msgData : MsgData
  deriving DecidableEq

/-- MessageApi.newUserSendMsgReq: build the canonical envelope from the
send parameters and the decoded payload. The orchestration-side current
time (timeutil.GetCurrentTimestampByMill) is the explicit argument now. -/
def newUserSendMsgReq (params : SendMsg) (data : DecodedData) (now : Int) : SendMsgReq :=
  let newContent : String :=
    if params.contentType = OANotification then
      notificationElemJson (structToJsonString params.content)
    else
      structToJsonString params.content
  let atUserIDList : List String :=
    if params.contentType = Text ∨ params.contentType = AtText then
      match data with
      | .atElem atUserList _ => atUserList
      | _ => []
    else []
  let options0 : List (String × Bool) := []
  let options1 := if params.isOnlineOnly then SetOptions options0 false else options0
  let options2 :=
    if params.notOfflinePush then setSwitchFromOptions options1 IsOfflinePush false
    else options1
  { msgData :=
    { sendID := params.sendID
      groupID := params.groupID
      clientMsgID := getMsgIDByMD5 params.sendID
      senderPlatformID := params.senderPlatformID
      senderNickname := params.senderNickname
      senderFaceURL := params.senderFaceURL
      sessionType := params.sessionType
      msgFrom := SysMsgType
      contentType := params.contentType
      createTime := now
      sendTime := params.sendTime
      offlinePushInfo := params.offlinePushInfo
      ex := params.ex
      atUserIDList := atUserIDList
      content := newContent
      options := options2 } }

/-- The helper loop body of getModifyFields: walk the descriptor list and
collect, in iteration order, the JSON name and acknowledged value of every
field whose sent and acknowledged values differ; the content byte field is
rendered as a string. -/
def collectModifyFields : List FieldDescriptor → MsgData → MsgData → List (String × ProtoValue)
  | [], _, _ => []
  | descriptor :: rest, req, resp =>
    let reqValue := descriptor.get req
    let respValue := descriptor.get resp
    if reqValue = respValue then collectModifyFields rest req resp
    else
      let name := descriptor.jsonName
      let val :=
        if name = "content" then
          match respValue with
          | .bytes bs => ProtoValue.str bs
          | v => v
        else respValue
      (name, val) :: collectModifyFields rest req resp

/-- MessageApi.getModifyFields: the modified-fields diff between the sent
envelope and the acknowledged envelope. A nil pointer on either side yields
nil, and an empty diff map is normalized to nil (absent). -/
def getModifyFields (req respModify : Option MsgData) : Option (List (String × ProtoValue)) :=
  match req, respModify with
  | some req, some resp =>
    let fields := collectModifyFields computeMsgDataDescriptor req resp
    if fields.isEmpty then none else some fields
  | _, _ => none

/-- Errors surfaced through apiresp.GinError, by construction site:
errArgs is errs.ErrArgs with a detail text, noPermission is
errs.ErrNoPermission, wrapped is errs.WrapMsg around a collaborator error,
internal is errs.Wrap, and rpc is an error returned by the msg RPC client. -/
inductive ApiError where
  | errArgs (detail : String)
  | noPermission (detail : String)
  | wrapped (msg : String) (detail : String)
  | internal (detail : String)
  | rpc (detail : String)
  deriving DecidableEq

/-- The delivery acknowledgment (msg.SendMsgResp). -/
structure SendMsgResp where
  serverMsgID : String := ""
  clientMsgID : String := ""
  sendTime : Int := 0
  modify : Option MsgData := none
  deriving DecidableEq

/-- The acknowledgment of the simple-send RPC (msg.SendSimpleMsgResp). -/
structure SendSimpleMsgResp where
  serverMsgID : String := ""
  clientMsgID : String := ""
  sendTime : Int := 0
  modify : Option MsgData := none
  deriving DecidableEq

/-- The wire request of the simple-send RPC (msg.SendSimpleMsgReq). -/
structure SendSimpleMsgReq where
  msgData : MsgData
  deriving DecidableEq

/-- The msg RPC client (msg.MsgClient), restricted to the calls these
handlers make; each call either fails or returns its acknowledgment. -/
structure MsgClient where
  sendMsg : SendMsgReq → Except ApiError SendMsgResp
  setSendMsgStatus : Int → Except ApiError Unit
  sendSimpleMsg : SendSimpleMsgReq → Except ApiError SendSimpleMsgResp

/-- Content decoding and validation collaborators used by getSendMsgReq:
weakDecode is mapstructure.WeakDecode into the schema selected by the
content type, validateStruct is the validator, and getNotificationByID is
the user-client existence check for OA notification senders. Codec errors
carry their message text. -/
structure ContentCollab where
  weakDecode : Int → String → Except String DecodedData
  validateStruct : DecodedData → Except String Unit
  getNotificationByID : String → Except ApiError Unit

/-- The decode-validate-build tail of getSendMsgReq shared by every
supported content type. -/
def decodeValidateBuild (collab : ContentCollab) (now : Int) (req : SendMsg) :
    Except ApiError SendMsgReq :=
  match collab.weakDecode req.contentType req.content with
  | .error e => .error (.wrapped "failed to decode message content" e)
  | .ok data =>
    match collab.validateStruct data with
    | .error e => .error (.wrapped "validation error" e)
    | .ok _ => .ok (newUserSendMsgReq req data now)

/-- MessageApi.getSendMsgReq: select the decoding schema from the content
type (failing on an unsupported tag); the OA notification case first forces
the session type to the notification chat type and checks the sender with
the user client; then decode, validate and build the envelope. -/
def getSendMsgReq (collab : ContentCollab) (now : Int) (req : SendMsg) :
    Except ApiError SendMsgReq :=
  if req.contentType = OANotification then
    let req2 := { req with sessionType := NotificationChatType }
    match collab.getNotificationByID req2.sendID with
    | .error e => .error e
    | .ok _ => decodeValidateBuild collab now req2
  else if req.contentType = Text ∨ req.contentType = Picture ∨
      req.contentType = Voice ∨ req.contentType = Video ∨
      req.contentType = File ∨ req.contentType = AtText ∨
      req.contentType = Custom ∨ req.contentType = MarkdownText then
    decodeValidateBuild collab now req
  else .error (.errArgs "unsupported content type")

/-- The caller-facing success payload (apistruct.SendMsgResp): the
acknowledgment with its raw modify field cleared, plus the computed diff. -/
structure ApiSendMsgResp where
  serverMsgID : String := ""
  clientMsgID : String := ""
  sendTime : Int := 0
  modify : Option (List (String × ProtoValue)) := none
  deriving DecidableEq

/-- MessageApi.ginRespSendMsg: compute the diff from the sent envelope and
the acknowledgment's modify field, clear the raw modify field, and return
the success payload. -/
def ginRespSendMsg (req : SendMsgReq) (resp : SendMsgResp) : ApiSendMsgResp :=
  { serverMsgID := resp.serverMsgID
    clientMsgID := resp.clientMsgID
    sendTime := resp.sendTime
    modify := getModifyFields (some req.msgData) resp.modify }

/-- The single-send request body (apistruct.SendMsgReq). -/
structure SendMsgReqBody where
  recvID : String := ""
  sendMsg : SendMsg := {}
  deriving DecidableEq

/-- MessageApi.SendMessage: bind the body, require the admin role, prepare
the envelope, set the receiver, submit, record the success status, and
answer with the acknowledgment plus diff. The body-binding outcome and the
admin check are explicit inputs. -/
def sendMessage (client : MsgClient) (collab : ContentCollab) (now : Int)
    (isAdmin : Bool) (bindResult : Except String SendMsgReqBody) :
    Except ApiError ApiSendMsgResp :=
  match bindResult with
  | .error e => .error (.errArgs e)
  | .ok req =>
    if !isAdmin then .error (.noPermission "only app manager can send message")
    else
      match getSendMsgReq collab now req.sendMsg with
      | .error e => .error e
      | .ok sendMsgReq =>
        let sendMsgReq :=
          { sendMsgReq with msgData := { sendMsgReq.msgData with recvID := req.recvID } }
        match client.sendMsg sendMsgReq with
        | .error e => .error e
        | .ok respPb =>
          let status := MsgSendSuccessed
          match client.setSendMsgStatus status with
          | .error e => .error e
          | .ok _ => .ok (ginRespSendMsg sendMsgReq respPb)

/-- The business-notification request body (the anonymous struct bound in
SendBusinessNotification). -/
structure BusinessNotificationBody where
  key : String := ""
  data : String := ""
  sendUserID : String := ""
  recvUserID : String := ""
  recvGroupID : String := ""
  sendMsg : Bool := false
  reliabilityLevel : Option Int := none
  deriving DecidableEq

/-- The envelope built by SendBusinessNotification from the validated body,
the operation user ID from the request context, the current time, and the
already-computed notification option policy (config.GetOptionsByNotification,
taken as an opaque collaborator: sendMsg flag, reliability level, unread
count flag to the option map). -/
def businessNotificationMsgData (req : BusinessNotificationBody)
    (opUserID : String) (now : Int) (sessionType : Int)
    (reliabilityLevel : Int)
    (getOptionsByNotification : Bool → Int → Bool → List (String × Bool)) : MsgData :=
  { sendID := req.sendUserID
    recvID := req.recvUserID
    groupID := req.recvGroupID
    content := notificationElemJson (keyDataJson req.key req.data)
    msgFrom := SysMsgType
    contentType := BusinessNotification
    sessionType := sessionType
    createTime := now
    clientMsgID := getMsgIDByMD5 opUserID
    options := getOptionsByNotification req.sendMsg reliabilityLevel false }

/-- MessageApi.SendBusinessNotification: bind the body, require exactly one
of recvUserID and recvGroupID, derive the session type, default the
reliability level to 1, require the admin role, build the envelope, submit,
and answer with the acknowledgment plus diff. -/
def sendBusinessNotification (client : MsgClient)
    (getOptionsByNotification : Bool → Int → Bool → List (String × Bool))
    (now : Int) (opUserID : String) (isAdmin : Bool)
    (bindResult : Except String BusinessNotificationBody) :
    Except ApiError ApiSendMsgResp :=
  match bindResult with
  | .error e => .error (.errArgs e)
  | .ok req =>
    if req.recvUserID = "" ∧ req.recvGroupID = "" then
      .error (.errArgs "recvUserID and recvGroupID cannot be empty at the same time")
    else if req.recvUserID ≠ "" ∧ req.recvGroupID ≠ "" then
      .error (.errArgs "recvUserID and recvGroupID cannot be set at the same time")
    else
      let sessionType := if req.recvUserID ≠ "" then SingleChatType else ReadGroupChatType
      let reliabilityLevel := req.reliabilityLevel.getD 1
      if !isAdmin then .error (.noPermission "only app manager can send message")
      else
        let sendMsgReq : SendMsgReq :=
          { msgData :=
              businessNotificationMsgData req opUserID now sessionType
                reliabilityLevel getOptionsByNotification }
        match client.sendMsg sendMsgReq with
        | .error e => .error e
        | .ok respPb => .ok (ginRespSendMsg sendMsgReq respPb)

/-- The batch-send request body (apistruct.BatchSendMsgReq). -/
structure BatchSendMsgBody where
  sendMsg : SendMsg := {}
  isSendAll : Bool := false
  recvIDs : List String := []
  deriving DecidableEq

/-- One per-recipient success entry (apistruct.SingleReturnResult). -/
structure SingleReturnResult where
  serverMsgID : String
  clientMsgID : String
  sendTime : Int
  recvID : String
  modify : Option (List (String × ProtoValue))
  deriving DecidableEq

/-- The per-recipient loop of BatchSendMsg: for each recipient in order,
substitute the recipient ID into the envelope template and submit; an error
appends the recipient to the failure list and continues, a success appends
the acknowledgment (with its diff against the submitted envelope) to the
result list. Returns (results, failedIDs). -/
def batchSendLoop (sendMsg : SendMsgReq → Except ApiError SendMsgResp)
    (msgData : MsgData) : List String → List SingleReturnResult × List String
  | [] => ([], [])
  | recvID :: rest =>
    let md := { msgData with recvID := recvID }
    let next := batchSendLoop sendMsg msgData rest
    match sendMsg { msgData := md } with
    | .error _ => (next.1, recvID :: next.2)
    | .ok rpcResp =>
      ({ serverMsgID := rpcResp.serverMsgID
         clientMsgID := rpcResp.clientMsgID
         sendTime := rpcResp.sendTime
         recvID := recvID
         modify := getModifyFields (some md) rpcResp.modify } :: next.1, next.2)

/-- Outcome of the send-to-all paging loop: the collected recipient IDs
together with the last page number requested, an error from the directory
client, or fuel exhaustion (the Go loop is unbounded; the fuel argument only
bounds the shallow embedding). -/
inductive PagingResult where
  | ok (recvIDs : List String) (lastPage : Nat)
  | err (e : ApiError)
  | fuelExhausted
  deriving DecidableEq

/-- The send-to-all paging loop of BatchSendMsg: request directory pages in
increasing page-number order, append each page, and stop after the first
page shorter than showNumber. -/
def getAllUserIDsLoop (getAllUserIDs : Nat → Except ApiError (List String))
    (showNumber : Nat) : Nat → Nat → PagingResult
  | 0, _ => .fuelExhausted
  | fuel + 1, pageNumber =>
    match getAllUserIDs pageNumber with
    | .error e => .err e
    | .ok recvIDsPart =>
      if recvIDsPart.length < showNumber then .ok recvIDsPart pageNumber
      else
        match getAllUserIDsLoop getAllUserIDs showNumber fuel (pageNumber + 1) with
        | .ok rest lastPage => .ok (recvIDsPart ++ rest) lastPage
        | r => r

/-- The batch-send response (apistruct.BatchSendMsgResp). -/
structure BatchSendMsgResp where
  results : List SingleReturnResult
  failedIDs : List String
  deriving DecidableEq

/-- MessageApi.BatchSendMsg: bind the body, require the admin role, resolve
the recipient list (paging the whole directory with page size 500 when
isSendAll), build the envelope template once, then run the per-recipient
loop. The fuel argument only bounds the embedding of the paging loop. -/
def batchSendMsg (client : MsgClient) (collab : ContentCollab)
    (getAllUserIDs : Nat → Except ApiError (List String)) (now : Int)
    (isAdmin : Bool) (fuel : Nat)
    (bindResult : Except String BatchSendMsgBody) :
    Except ApiError BatchSendMsgResp :=
  match bindResult with
  | .error e => .error (.errArgs e)
  | .ok req =>
    if !isAdmin then .error (.noPermission "only app manager can send message")
    else
      let resolved : Except ApiError (List String) :=
        if req.isSendAll then
          match getAllUserIDsLoop getAllUserIDs 500 fuel 1 with
          | .ok recvIDs _ => .ok recvIDs
          | .err e => .error e
          | .fuelExhausted => .error (.internal "fuel exhausted")
        else .ok req.recvIDs
      match resolved with
      | .error e => .error e
      | .ok recvIDs =>
        match getSendMsgReq collab now req.sendMsg with
        | .error e => .error e
        | .ok sendMsgReq =>
          let out := batchSendLoop client.sendMsg sendMsgReq.msgData recvIDs
          .ok { results := out.1, failedIDs := out.2 }

/-- The routing structure embedded, base64 encoded, in the quick-send query
parameter (apistruct.KeyMsgData). -/
structure KeyMsgData where
  sendID : String := ""
  recvID : String := ""
  groupID : String := ""
  deriving DecidableEq

/-- The quick-send request body (apistruct.SendSingleMsgReq). -/
structure SendSingleMsgReq where
  sendID : String := ""
  content : String := ""
  offlinePushInfo : Option OfflinePushInfo := none
  ex : String := ""
  deriving DecidableEq

/-- Observable processing steps of SendSimpleMessage, in execution order:
base64 decoding of the routing key, JSON binding of the request body,
unmarshalling of the embedded routing structure, serialization of the
markdown content, submission of the built envelope, and the delivery-status
record call. -/
inductive QuickStep where
  | decodeBase64
  | bindBody
  | unmarshalKey
  | marshalContent
  | submit (m : MsgData)
  | setStatus
  deriving DecidableEq

/-- The envelope built by SendSimpleMessage (lines building sdkws.MsgData in
the quick-send path): sender and receiver as resolved from the routing key,
markdown content, admin platform, user-origin classifier. -/
def mkSimpleMsgData (sendID recvID : String) (keyMsgData : KeyMsgData)
    (sessionType : Int) (content : String) (req : SendSingleMsgReq) : MsgData :=
  { sendID := sendID
    recvID := recvID
    groupID := keyMsgData.groupID
    clientMsgID := getMsgIDByMD5 sendID
    senderPlatformID := AdminPlatformID
    sessionType := sessionType
    msgFrom := UserMsgType
    contentType := MarkdownText
    content := content
    offlinePushInfo := req.offlinePushInfo
    ex := req.ex }

/-- MessageApi.SendSimpleMessage: read the encoded routing key from the
query, base64 decode it, bind the JSON body, unmarshal the embedded routing
structure, resolve sender/receiver/session from it, validate, serialize the
markdown content, submit, record the delivery status, and answer with the
acknowledgment plus diff. Returns the outcome together with the list of
processing steps that ran, in order. -/
def sendSimpleMessage (client : MsgClient)
    (base64Decode : String → Except String String)
    (unmarshalKeyMsgData : String → Except String KeyMsgData)
    (jsonMarshalMarkdown : String → Except String String)
    (query : Option String)
    (bindResult : Except String SendSingleMsgReq) :
    Except ApiError ApiSendMsgResp × List QuickStep :=
  match query with
  | none => (.error (.errArgs "missing key in query"), [])
  | some encodedKey =>
    match base64Decode encodedKey with
    | .error e => (.error (.errArgs e), [.decodeBase64])
    | .ok decodedData =>
      match bindResult with
      | .error e => (.error (.errArgs e), [.decodeBase64, .bindBody])
      | .ok req =>
        match unmarshalKeyMsgData decodedData with
        | .error e => (.error (.errArgs e), [.decodeBase64, .bindBody, .unmarshalKey])
        | .ok keyMsgData =>
          let steps : List QuickStep := [.decodeBase64, .bindBody, .unmarshalKey]
          let sessionType :=
            if keyMsgData.groupID ≠ "" then ReadGroupChatType else SingleChatType
          let sendID :=
            if keyMsgData.groupID ≠ "" then req.sendID else keyMsgData.recvID
          let recvID :=
            if keyMsgData.groupID ≠ "" then "" else keyMsgData.sendID
          if keyMsgData.sendID = "" then
            (.error (.errArgs "missing recvID or GroupID"), steps)
          else if sendID = "" then
            (.error (.errArgs "missing sendID"), steps)
          else
            match jsonMarshalMarkdown req.content with
            | .error e => (.error (.internal e), steps ++ [.marshalContent])
            | .ok content =>
              let msgData := mkSimpleMsgData sendID recvID keyMsgData sessionType content req
              let sendReq : SendSimpleMsgReq := { msgData := msgData }
              match client.sendSimpleMsg sendReq with
              | .error e => (.error e, steps ++ [.marshalContent, .submit msgData])
              | .ok respPb =>
                match client.setSendMsgStatus MsgSendSuccessed with
                | .error e =>
                  (.error e, steps ++ [.marshalContent, .submit msgData, .setStatus])
                | .ok _ =>
                  (.ok (ginRespSendMsg { msgData := msgData }
                      { serverMsgID := respPb.serverMsgID
                        clientMsgID := respPb.clientMsgID
                        sendTime := respPb.sendTime
                        modify := respPb.modify }),
                   steps ++ [.marshalContent, .submit msgData, .setStatus])

/-! Helper lemmas. -/

theorem lookup_setSwitchFromOptions_self (o : List (String × Bool)) (k : String) (v : Bool) :
    (setSwitchFromOptions o k v).lookup k = some v := by
  induction o with
  | nil => simp [setSwitchFromOptions, List.lookup]
  | cons kv rest ih =>
    obtain ⟨k1, v1⟩ := kv
    by_cases h : k1 = k
    · simp [setSwitchFromOptions, h, List.lookup]
    · have hb : (k == k1) = false := beq_eq_false_iff_ne.mpr fun hh => h hh.symm
      simp [setSwitchFromOptions, h, List.lookup, hb, ih]

theorem lookup_setSwitchFromOptions_ne (o : List (String × Bool)) (k : String) (v : Bool)
    (k' : String) (h : k' ≠ k) :
    (setSwitchFromOptions o k v).lookup k' = o.lookup k' := by
  have hb : (k' == k) = false := beq_eq_false_iff_ne.mpr h
  induction o with
  | nil => simp [setSwitchFromOptions, List.lookup, hb]
  | cons kv rest ih =>
    obtain ⟨k1, v1⟩ := kv
    by_cases h1 : k1 = k
    · subst h1
      simp [setSwitchFromOptions, List.lookup, hb]
    · simp only [setSwitchFromOptions, if_neg h1]
      by_cases h2 : k' = k1
      · subst h2
        simp [List.lookup]
      · have hb2 : (k' == k1) = false := beq_eq_false_iff_ne.mpr h2
        simp [List.lookup, hb2, ih]

theorem collectModifyFields_eq_nil (descs : List FieldDescriptor) (req resp : MsgData)
    (h : ∀ d ∈ descs, d.get req = d.get resp) :
    collectModifyFields descs req resp = [] := by
  induction descs with
  | nil => rfl
  | cons d rest ih =>
    have hd := h d (List.mem_cons_self ..)
    simp only [collectModifyFields, if_pos hd]
    exact ih fun x hx => h x (List.mem_cons_of_mem _ hx)

theorem collectModifyFields_name_mem (descs : List FieldDescriptor) (req resp : MsgData)
    (p : String × ProtoValue) (hp : p ∈ collectModifyFields descs req resp) :
    ∃ d ∈ descs, p.1 = d.jsonName := by
  induction descs with
  | nil => simp [collectModifyFields] at hp
  | cons d rest ih =>
    simp only [collectModifyFields] at hp
    by_cases h : d.get req = d.get resp
    · rw [if_pos h] at hp
      obtain ⟨d', hd', he⟩ := ih hp
      exact ⟨d', List.mem_cons_of_mem _ hd', he⟩
    · rw [if_neg h] at hp
      rcases List.mem_cons.mp hp with hhead | htail
      · exact ⟨d, List.mem_cons_self .., by rw [hhead]⟩
      · obtain ⟨d', hd', he⟩ := ih htail
        exact ⟨d', List.mem_cons_of_mem _ hd', he⟩

theorem mem_computeMsgDataDescriptor_not_ack (d : FieldDescriptor)
    (hd : d ∈ computeMsgDataDescriptor) : d.jsonName ∉ sendMsgRespJSONNames := by
  have h := List.of_mem_filter hd
  simpa using h

/-! Claim theorems. -/

/-- C1: the client message ID placed on the envelope is a pure deterministic
function of the sender identity alone: any two envelope constructions by
newUserSendMsgReq with equal sender IDs (whatever the other inputs) yield
equal ClientMsgID values, and any two business-notification envelope
constructions with equal operation-user IDs (the hashed sender identity on
that path) yield equal ClientMsgID values. -/
theorem clientMsgID_deterministic :
    (∀ (p1 p2 : SendMsg) (d1 d2 : DecodedData) (n1 n2 : Int),
        p1.sendID = p2.sendID →
        (newUserSendMsgReq p1 d1 n1).msgData.clientMsgID =
          (newUserSendMsgReq p2 d2 n2).msgData.clientMsgID) ∧
    (∀ (r1 r2 : BusinessNotificationBody) (op1 op2 : String) (n1 n2 s1 s2 rl1 rl2 : Int)
        (g1 g2 : Bool → Int → Bool → List (String × Bool)), op1 = op2 →
        (businessNotificationMsgData r1 op1 n1 s1 rl1 g1).clientMsgID =
          (businessNotificationMsgData r2 op2 n2 s2 rl2 g2).clientMsgID) := by
  constructor
  · intro p1 p2 d1 d2 n1 n2 h
    simp [newUserSendMsgReq, h]
  · intro r1 r2 op1 op2 n1 n2 s1 s2 rl1 rl2 g1 g2 h
    simp [businessNotificationMsgData, h]

/-- Witness for C1: two sends with sender u1 but different nicknames,
payloads and times share one client message ID; two business notifications
with operation user op but different bodies, times and option policies share
one client message ID. -/
theorem clientMsgID_deterministic_witness :
    (newUserSendMsgReq { sendID := "u1", senderNickname := "a" } .customElem 1).msgData.clientMsgID =
      (newUserSendMsgReq { sendID := "u1", senderNickname := "b" } (.textElem "x") 2).msgData.clientMsgID ∧
    (businessNotificationMsgData { key := "k" } "op" 1 SingleChatType 1
        (fun _ _ _ => [])).clientMsgID =
      (businessNotificationMsgData { data := "d" } "op" 2 ReadGroupChatType 2
        (fun _ _ _ => [(IsHistory, true)])).clientMsgID :=
  ⟨clientMsgID_deterministic.1 _ _ _ _ _ _ rfl,
   clientMsgID_deterministic.2 _ _ _ _ _ _ _ _ _ _ _ _ rfl⟩

/-- C5: the online-only toggle forces the history-persistence,
durable-storage, sender-side sync and conversation-update switches to false
(for every input option set), the suppress-offline-push toggle independently
forces the offline-push switch to false, and both forcings hold on the
envelope built by newUserSendMsgReq for every combination of the two
toggles and all other inputs. -/
theorem setOptions_forcing :
    (∀ options : List (String × Bool),
        (SetOptions options false).lookup IsHistory = some false ∧
        (SetOptions options false).lookup IsPersistent = some false ∧
        (SetOptions options false).lookup IsSenderSync = some false ∧
        (SetOptions options false).lookup IsConversationUpdate = some false) ∧
    (∀ options : List (String × Bool),
        (setSwitchFromOptions options IsOfflinePush false).lookup IsOfflinePush = some false) ∧
    (∀ (params : SendMsg) (data : DecodedData) (now : Int),
        (params.isOnlineOnly = true →
          (newUserSendMsgReq params data now).msgData.options.lookup IsHistory = some false ∧
          (newUserSendMsgReq params data now).msgData.options.lookup IsPersistent = some false ∧
          (newUserSendMsgReq params data now).msgData.options.lookup IsSenderSync = some false ∧
          (newUserSendMsgReq params data now).msgData.options.lookup IsConversationUpdate =
            some false) ∧
        (params.notOfflinePush = true →
          (newUserSendMsgReq params data now).msgData.options.lookup IsOfflinePush =
            some false)) := by
  refine ⟨?_, ?_, ?_⟩
  · intro options
    refine ⟨?_, ?_, ?_, ?_⟩ <;>
      simp [SetOptions, lookup_setSwitchFromOptions_self, lookup_setSwitchFromOptions_ne,
        IsHistory, IsPersistent, IsSenderSync, IsConversationUpdate]
  · intro options
    exact lookup_setSwitchFromOptions_self options IsOfflinePush false
  · intro params data now
    constructor
    · intro hon
      cases hoff : params.notOfflinePush <;>
        refine ⟨?_, ?_, ?_, ?_⟩ <;>
          simp [newUserSendMsgReq, hon, hoff] <;> decide
    · intro hoff
      cases hon : params.isOnlineOnly <;>
        simp [newUserSendMsgReq, hon, hoff] <;> decide

/-- Witness for C5: with both toggles set (and an arbitrary other input
combination), all four persistence-path switches and the offline-push switch
read false on the built envelope. -/
theorem setOptions_forcing_witness :
    ((newUserSendMsgReq { sendID := "u1", isOnlineOnly := true, notOfflinePush := true }
        .customElem 7).msgData.options.lookup IsHistory = some false ∧
      (newUserSendMsgReq { sendID := "u1", isOnlineOnly := true, notOfflinePush := true }
        .customElem 7).msgData.options.lookup IsPersistent = some false ∧
      (newUserSendMsgReq { sendID := "u1", isOnlineOnly := true, notOfflinePush := true }
        .customElem 7).msgData.options.lookup IsSenderSync = some false ∧
      (newUserSendMsgReq { sendID := "u1", isOnlineOnly := true, notOfflinePush := true }
        .customElem 7).msgData.options.lookup IsConversationUpdate = some false) ∧
    (newUserSendMsgReq { sendID := "u1", isOnlineOnly := true, notOfflinePush := true }
        .customElem 7).msgData.options.lookup IsOfflinePush = some false :=
  ⟨(setOptions_forcing.2.2 _ .customElem 7).1 rfl,
   (setOptions_forcing.2.2 _ .customElem 7).2 rfl⟩

/-- C6: the diff computation is reflexive — diffing a sent envelope against
an acknowledged envelope that echoes every compared field unchanged yields
the absent value (none), not an empty map. -/
theorem getModifyFields_reflexive (req resp : MsgData)
    (h : ∀ d ∈ computeMsgDataDescriptor, d.get req = d.get resp) :
    getModifyFields (some req) (some resp) = none := by
  simp [getModifyFields, collectModifyFields_eq_nil _ _ _ h]

/-- Witness for C6: diffing a concrete envelope against itself is absent. -/
theorem getModifyFields_reflexive_witness :
    getModifyFields (some ({ sendID := "u1" } : MsgData)) (some { sendID := "u1" }) = none :=
  getModifyFields_reflexive { sendID := "u1" } { sendID := "u1" } (fun _ _ => rfl)

/-- C3: the modified-fields diff never contains a field whose JSON name also
appears on the delivery acknowledgment structure, whatever the sent and
acknowledged values are; and the descriptor list behind the diff is derived
lazily on first use (from the acknowledgment structure's own field names)
and cached: a call on the empty cache computes and stores it, and every call
on a filled cache returns the cached list with the cache unchanged. -/
theorem diff_excludes_ack_fields :
    (∀ (req resp : MsgData) (fields : List (String × ProtoValue)),
        getModifyFields (some req) (some resp) = some fields →
        ∀ p ∈ fields, p.1 ∉ sendMsgRespJSONNames) ∧
    getMsgDataDescriptor none = (computeMsgDataDescriptor, some computeMsgDataDescriptor) ∧
    (∀ cached : List FieldDescriptor,
        getMsgDataDescriptor (some cached) = (cached, some cached)) := by
  refine ⟨?_, rfl, fun _ => rfl⟩
  intro req resp fields hf p hp
  simp only [getModifyFields] at hf
  split at hf
  · exact absurd hf (by simp)
  · obtain rfl : collectModifyFields computeMsgDataDescriptor req resp = fields :=
      Option.some.inj hf
    obtain ⟨d, hd, he⟩ := collectModifyFields_name_mem _ _ _ _ hp
    rw [he]
    exact mem_computeMsgDataDescriptor_not_ack d hd

/-- Witness for C3: a concrete diff where recvID was rewritten and
serverMsgID differs reports recvID only, and recvID is indeed outside the
acknowledgment field-name set; a second descriptor call returns the cached
list unchanged. -/
theorem diff_excludes_ack_fields_witness :
    ("recvID" : String) ∉ sendMsgRespJSONNames ∧
    getMsgDataDescriptor (some computeMsgDataDescriptor) =
      (computeMsgDataDescriptor, some computeMsgDataDescriptor) :=
  ⟨diff_excludes_ack_fields.1 {} { recvID := "B", serverMsgID := "S" }
      [("recvID", ProtoValue.str "B")] (by decide) ("recvID", ProtoValue.str "B") (by decide),
   diff_excludes_ack_fields.2.2 computeMsgDataDescriptor⟩

/-- Whether an RPC outcome is a success. -/
def exOk {ε α : Type} : Except ε α → Bool
  | .ok _ => true
  | .error _ => false

theorem batchSendLoop_failedIDs (s : SendMsgReq → Except ApiError SendMsgResp) (m : MsgData)
    (l : List String) :
    (batchSendLoop s m l).2 =
      l.filter fun r => !exOk (s { msgData := { m with recvID := r } }) := by
  induction l with
  | nil => rfl
  | cons r rest ih =>
    simp only [batchSendLoop, List.filter_cons]
    cases hs : s { msgData := { m with recvID := r } } with
    | error e => simp [hs, exOk, ih]
    | ok resp => simp [hs, exOk, ih]

theorem batchSendLoop_results (s : SendMsgReq → Except ApiError SendMsgResp) (m : MsgData)
    (l : List String) :
    (batchSendLoop s m l).1.map SingleReturnResult.recvID =
      l.filter fun r => exOk (s { msgData := { m with recvID := r } }) := by
  induction l with
  | nil => rfl
  | cons r rest ih =>
    simp only [batchSendLoop, List.filter_cons]
    cases hs : s { msgData := { m with recvID := r } } with
    | error e => simp [hs, exOk, ih]
    | ok resp => simp [hs, exOk, ih]

/-- C2: when exactly one recipient of a batch send fails at the backend and
every other recipient succeeds, the failure list is exactly that one
recipient, the success entries are exactly the other recipients in original
iteration order, and there are N minus 1 of them — the loop never aborts on
a per-recipient failure. -/
theorem batchSend_partial_failure (s : SendMsgReq → Except ApiError SendMsgResp)
    (m : MsgData) (pre post : List String) (k : String)
    (hpre : ∀ r ∈ pre, exOk (s { msgData := { m with recvID := r } }) = true)
    (hpost : ∀ r ∈ post, exOk (s { msgData := { m with recvID := r } }) = true)
    (hk : exOk (s { msgData := { m with recvID := k } }) = false) :
    (batchSendLoop s m (pre ++ k :: post)).2 = [k] ∧
    (batchSendLoop s m (pre ++ k :: post)).1.map SingleReturnResult.recvID = pre ++ post ∧
    (batchSendLoop s m (pre ++ k :: post)).1.length + 1 = (pre ++ k :: post).length := by
  have h2 := batchSendLoop_failedIDs s m (pre ++ k :: post)
  have h1 := batchSendLoop_results s m (pre ++ k :: post)
  rw [List.filter_append, List.filter_cons] at h1 h2
  rw [List.filter_eq_nil_iff.mpr (fun r hr => by simp [hpre r hr])] at h2
  rw [List.filter_eq_self.mpr hpre] at h1
  rw [if_pos (by simp [hk])] at h2
  rw [if_neg (by simp [hk])] at h1
  rw [List.filter_eq_nil_iff.mpr (fun r hr => by simp [hpost r hr])] at h2
  rw [List.filter_eq_self.mpr hpost] at h1
  refine ⟨by simpa using h2, h1, ?_⟩
  have := congrArg List.length h1
  simp only [List.length_map, List.length_append, List.length_cons] at this ⊢
  omega

/-- The backend stub used by the batch-send witness: recipient u2 fails,
everyone else succeeds. -/
def stubBatchSend : SendMsgReq → Except ApiError SendMsgResp :=
  fun r => if r.msgData.recvID = "u2" then .error (.rpc "backend down") else .ok {}

/-- Witness for C2: over recipients u1, u2, u3 where only u2 fails, the
failure list is exactly u2 and the successes are u1 and u3 in order. -/
theorem batchSend_partial_failure_witness :
    (batchSendLoop stubBatchSend {} (["u1"] ++ "u2" :: ["u3"])).2 = ["u2"] ∧
    (batchSendLoop stubBatchSend {} (["u1"] ++ "u2" :: ["u3"])).1.map
      SingleReturnResult.recvID = ["u1"] ++ ["u3"] ∧
    (batchSendLoop stubBatchSend {} (["u1"] ++ "u2" :: ["u3"])).1.length + 1 =
      (["u1"] ++ "u2" :: ["u3"]).length :=
  batchSend_partial_failure stubBatchSend {} ["u1"] ["u3"] "u2"
    (by decide) (by decide) (by decide)

theorem getAllUserIDsLoop_run (dir : Nat → List String) (showNumber m : Nat)
    (hshort : (dir m).length < showNumber)
    (hfull : ∀ i, 1 ≤ i → i < m → ¬(dir i).length < showNumber) :
    ∀ fuel p, 1 ≤ p → p ≤ m → m - p < fuel →
      getAllUserIDsLoop (fun q => .ok (dir q)) showNumber fuel p =
        .ok ((List.range' p (m - p + 1)).flatMap dir) m := by
  intro fuel
  induction fuel with
  | zero => intro p _ _ hf; omega
  | succ fuel ih =>
    intro p hp1 hpm hf
    by_cases hpm2 : p = m
    · subst hpm2
      simp only [getAllUserIDsLoop, if_pos hshort]
      simp [List.range'_succ]
    · have hplt : p < m := lt_of_le_of_ne hpm hpm2
      simp only [getAllUserIDsLoop, if_neg (hfull p hp1 hplt)]
      have hr : (List.range' p (m - p + 1)).flatMap dir =
          dir p ++ (List.range' (p + 1) (m - (p + 1) + 1)).flatMap dir := by
        rw [show m - p + 1 = (m - (p + 1) + 1) + 1 by omega, List.range'_succ,
          List.flatMap_cons]
      rw [ih (p + 1) (by omega) (by omega) (by omega), hr]

/-- C4: when send-to-all pages a directory whose pages are full up to the
first short page m, the loop (requesting pages in increasing order from
page 1 with the fixed page size 500) returns exactly the concatenation of
pages 1..m in order, the last page requested is m (nothing is requested
past the first short page), it terminates with any fuel of at least m
requests, and the resolved recipient count is the sum of all page sizes. -/
theorem sendToAll_paging (dir : Nat → List String) (m fuel : Nat)
    (h1 : 1 ≤ m) (hshort : (dir m).length < 500)
    (hfull : ∀ i, 1 ≤ i → i < m → ¬(dir i).length < 500)
    (hfuel : m ≤ fuel) :
    getAllUserIDsLoop (fun q => .ok (dir q)) 500 fuel 1 =
      .ok ((List.range' 1 m).flatMap dir) m ∧
    ((List.range' 1 m).flatMap dir).length =
      ((List.range' 1 m).map fun i => (dir i).length).sum := by
  constructor
  · have h := getAllUserIDsLoop_run dir 500 m hshort hfull fuel 1 le_rfl h1 (by omega)
    rwa [show m - 1 + 1 = m by omega] at h
  · rw [List.length_flatMap]
    rfl

/-- The directory stub used by the paging witness: page 1 is full (500 IDs),
page 2 is short (one ID). -/
def stubDir : Nat → List String :=
  fun i => if i = 1 then List.replicate 500 "u" else if i = 2 then ["v"] else []

/-- Witness for C4: against the stub directory, paging with fuel 2 stops at
page 2, collects pages 1 and 2 in order, and the count is the sum of both
page sizes. -/
theorem sendToAll_paging_witness :
    getAllUserIDsLoop (fun q => .ok (stubDir q)) 500 2 1 =
      .ok ((List.range' 1 2).flatMap stubDir) 2 ∧
    ((List.range' 1 2).flatMap stubDir).length =
      ((List.range' 1 2).map fun i => (stubDir i).length).sum :=
  sendToAll_paging stubDir 2 2 (by omega) (by decide)
    (fun i hi1 hi2 => by
      have he : i = 1 := by omega
      subst he
      rw [show stubDir 1 = List.replicate 500 "u" from rfl, List.length_replicate]
      omega)
    le_rfl

/-- A msg client stub whose calls all succeed with zero-valued
acknowledgments. -/
def stubQuickClient : MsgClient :=
  { sendMsg := fun _ => .ok {}
    setSendMsgStatus := fun _ => .ok ()
    sendSimpleMsg := fun _ => .ok {} }

/-- C7 (amended): the standard envelope builder and the business-notification
path stamp the creation time with the orchestration-side current time and
leave the send-time field exactly at the caller-supplied value (zero, i.e.
absent, when the caller supplied none); the quick-send path stamps neither —
its envelope carries zero creation and send times. -/
theorem createTime_stamping :
    (∀ (params : SendMsg) (data : DecodedData) (now : Int),
        (newUserSendMsgReq params data now).msgData.createTime = now ∧
        (newUserSendMsgReq params data now).msgData.sendTime = params.sendTime) ∧
    (∀ (req : BusinessNotificationBody) (opUserID : String) (now : Int)
        (sessionType reliabilityLevel : Int)
        (g : Bool → Int → Bool → List (String × Bool)),
        (businessNotificationMsgData req opUserID now sessionType
            reliabilityLevel g).createTime = now ∧
        (businessNotificationMsgData req opUserID now sessionType
            reliabilityLevel g).sendTime = 0) ∧
    (∀ (sendID recvID : String) (keyMsgData : KeyMsgData) (sessionType : Int)
        (content : String) (req : SendSingleMsgReq),
        (mkSimpleMsgData sendID recvID keyMsgData sessionType content req).createTime = 0 ∧
        (mkSimpleMsgData sendID recvID keyMsgData sessionType content req).sendTime = 0) := by
  refine ⟨fun params data now => ⟨?_, ?_⟩,
    fun req opUserID now sessionType reliabilityLevel g => ⟨?_, ?_⟩,
    fun sendID recvID keyMsgData sessionType content req => ⟨?_, ?_⟩⟩ <;>
  simp [newUserSendMsgReq, businessNotificationMsgData, mkSimpleMsgData]

/-- Counterexample to C7 as stated: a successful concrete quick-send run
submits an envelope whose creation time is zero (never stamped with any
orchestration-side current time) and whose send time is zero, so it is not
the case that every send path stamps the creation time at build time. -/
theorem createTime_stamping_counterexample :
    ((sendSimpleMessage stubQuickClient (fun s => .ok s)
        (fun _ => .ok { sendID := "a", recvID := "b" }) (fun s => .ok s)
        (some "k") (.ok { content := "hi" })).2.any fun step =>
      match step with
      | .submit m => decide (m.createTime = 0 ∧ m.sendTime = 0)
      | _ => false) = true := rfl

/-- C8 (amended): a quick send whose routing key has a bad transport
encoding fails with the routing-key error before the body is decoded or any
content processing runs; a well-encoded key whose embedded structure is
malformed fails with the routing-key error only after the body has been
bound, but before any content serialization or backend submission; a
decoded routing structure lacking a sender identity fails with a validation
error, again with no serialization or submission. -/
theorem quickSend_routing_order (client : MsgClient)
    (base64Decode : String → Except String String)
    (unmarshalKeyMsgData : String → Except String KeyMsgData)
    (jsonMarshalMarkdown : String → Except String String)
    (encodedKey : String) (bindResult : Except String SendSingleMsgReq) :
    (∀ e, base64Decode encodedKey = .error e →
      sendSimpleMessage client base64Decode unmarshalKeyMsgData jsonMarshalMarkdown
          (some encodedKey) bindResult =
        (.error (.errArgs e), [.decodeBase64])) ∧
    (∀ dd req e, base64Decode encodedKey = .ok dd → bindResult = .ok req →
      unmarshalKeyMsgData dd = .error e →
      sendSimpleMessage client base64Decode unmarshalKeyMsgData jsonMarshalMarkdown
          (some encodedKey) bindResult =
        (.error (.errArgs e), [.decodeBase64, .bindBody, .unmarshalKey])) ∧
    (∀ dd req key, base64Decode encodedKey = .ok dd → bindResult = .ok req →
      unmarshalKeyMsgData dd = .ok key → key.sendID = "" →
      sendSimpleMessage client base64Decode unmarshalKeyMsgData jsonMarshalMarkdown
          (some encodedKey) bindResult =
        (.error (.errArgs "missing recvID or GroupID"),
         [.decodeBase64, .bindBody, .unmarshalKey])) := by
  refine ⟨?_, ?_, ?_⟩
  · intro e hb
    simp [sendSimpleMessage, hb]
  · intro dd req e hb hbind hkey
    simp [sendSimpleMessage, hb, hbind, hkey]
  · intro dd req key hb hbind hkey hsid
    simp [sendSimpleMessage, hb, hbind, hkey, hsid]

/-- Witness for the amended C8: concrete runs of each of the three failure
shapes, with the exact error and step trace. -/
theorem quickSend_routing_order_witness :
    sendSimpleMessage stubQuickClient (fun _ => .error "bad base64")
        (fun _ => .ok {}) (fun s => .ok s) (some "k") (.ok {}) =
      (.error (.errArgs "bad base64"), [.decodeBase64]) ∧
    sendSimpleMessage stubQuickClient (fun s => .ok s)
        (fun _ => .error "bad key structure") (fun s => .ok s) (some "k") (.ok {}) =
      (.error (.errArgs "bad key structure"), [.decodeBase64, .bindBody, .unmarshalKey]) ∧
    sendSimpleMessage stubQuickClient (fun s => .ok s)
        (fun _ => .ok {}) (fun s => .ok s) (some "k") (.ok {}) =
      (.error (.errArgs "missing recvID or GroupID"),
       [.decodeBase64, .bindBody, .unmarshalKey]) :=
  ⟨(quickSend_routing_order stubQuickClient (fun _ => .error "bad base64")
      (fun _ => .ok {}) (fun s => .ok s) "k" (.ok {})).1 "bad base64" rfl,
   (quickSend_routing_order stubQuickClient (fun s => .ok s)
      (fun _ => .error "bad key structure") (fun s => .ok s) "k" (.ok {})).2.1
      "k" {} "bad key structure" rfl rfl rfl,
   (quickSend_routing_order stubQuickClient (fun s => .ok s)
      (fun _ => .ok {}) (fun s => .ok s) "k" (.ok {})).2.2
      "k" {} {} rfl rfl rfl rfl⟩

/-- Counterexample to C8 as stated: valid transport encoding but a malformed
embedded routing structure, together with a request body that itself fails
decoding — the operation fails with the body-decoding error, not the
routing-key error, and the body-decoding step has already run, so a
malformed embedded structure does not fail before payload decoding. -/
theorem quickSend_routing_order_counterexample :
    (sendSimpleMessage stubQuickClient (fun s => .ok s)
        (fun _ => .error "invalid key structure") (fun s => .ok s)
        (some "k") (.error "invalid body")).1 = .error (.errArgs "invalid body") ∧
    (sendSimpleMessage stubQuickClient (fun s => .ok s)
        (fun _ => .error "invalid key structure") (fun s => .ok s)
        (some "k") (.error "invalid body")).2 = [.decodeBase64, .bindBody] :=
  ⟨rfl, rfl⟩

/-- C9: in quick send, when the decoded routing key has an empty group ID
(direct-chat mode) the submitted envelope swaps the roles embedded in the
key — its sender ID is the key's recipient-ID field and its recipient ID is
the key's sender-ID field; when the key's group ID is non-empty, the
envelope's sender ID is taken from the request body and its recipient ID is
left empty. -/
theorem quickSend_role_swap (client : MsgClient)
    (base64Decode : String → Except String String)
    (unmarshalKeyMsgData : String → Except String KeyMsgData)
    (jsonMarshalMarkdown : String → Except String String)
    (encodedKey dd : String) (req : SendSingleMsgReq) (key : KeyMsgData)
    (content : String)
    (hb : base64Decode encodedKey = .ok dd)
    (hkey : unmarshalKeyMsgData dd = .ok key)
    (hsid : key.sendID ≠ "")
    (hm : jsonMarshalMarkdown req.content = .ok content) :
    (key.groupID = "" → key.recvID ≠ "" →
      ∃ m : MsgData,
        QuickStep.submit m ∈ (sendSimpleMessage client base64Decode unmarshalKeyMsgData
            jsonMarshalMarkdown (some encodedKey) (.ok req)).2 ∧
        m.sendID = key.recvID ∧ m.recvID = key.sendID) ∧
    (key.groupID ≠ "" → req.sendID ≠ "" →
      ∃ m : MsgData,
        QuickStep.submit m ∈ (sendSimpleMessage client base64Decode unmarshalKeyMsgData
            jsonMarshalMarkdown (some encodedKey) (.ok req)).2 ∧
        m.sendID = req.sendID ∧ m.recvID = "") := by
  constructor
  · intro hg hrv
    refine ⟨mkSimpleMsgData key.recvID key.sendID key SingleChatType content req,
      ?_, rfl, rfl⟩
    simp only [sendSimpleMessage, hb, hkey, hm, hg, hsid, hrv]
    simp only [ne_eq, not_true_eq_false, if_false, if_neg hsid, if_neg hrv]
    rcases hc : client.sendSimpleMsg
        { msgData := mkSimpleMsgData key.recvID key.sendID key SingleChatType content req }
      with e | respPb
    · simp [hc]
    · rcases hst : client.setSendMsgStatus MsgSendSuccessed with e2 | u
      · simp [hc, hst]
      · simp [hc, hst]
  · intro hg hrs
    refine ⟨mkSimpleMsgData req.sendID "" key ReadGroupChatType content req,
      ?_, rfl, rfl⟩
    rcases hc : client.sendSimpleMsg
        { msgData := mkSimpleMsgData req.sendID "" key ReadGroupChatType content req }
      with e | respPb
    · simp [sendSimpleMessage, hb, hkey, hm, hg, hsid, hrs, hc]
    · rcases hst : client.setSendMsgStatus MsgSendSuccessed with e2 | u
      · simp [sendSimpleMessage, hb, hkey, hm, hg, hsid, hrs, hc, hst]
      · simp [sendSimpleMessage, hb, hkey, hm, hg, hsid, hrs, hc, hst]

/-- Witness for C9: a concrete direct-chat quick send (empty group ID in the
key) submits an envelope with sender b and receiver a given a key with
sender a and receiver b; a concrete group quick send submits an envelope
with the body's sender s and an empty receiver. -/
theorem quickSend_role_swap_witness :
    (∃ m : MsgData,
      QuickStep.submit m ∈ (sendSimpleMessage stubQuickClient (fun s => .ok s)
          (fun _ => .ok { sendID := "a", recvID := "b" }) (fun s => .ok s)
          (some "k") (.ok { content := "hi" })).2 ∧
      m.sendID = ({ sendID := "a", recvID := "b" } : KeyMsgData).recvID ∧
      m.recvID = ({ sendID := "a", recvID := "b" } : KeyMsgData).sendID) ∧
    (∃ m : MsgData,
      QuickStep.submit m ∈ (sendSimpleMessage stubQuickClient (fun s => .ok s)
          (fun _ => .ok { sendID := "a", groupID := "g" }) (fun s => .ok s)
          (some "k") (.ok { sendID := "s", content := "hi" })).2 ∧
      m.sendID = ({ sendID := "s", content := "hi" } : SendSingleMsgReq).sendID ∧
      m.recvID = "") :=
  ⟨(quickSend_role_swap stubQuickClient (fun s => .ok s)
      (fun _ => .ok { sendID := "a", recvID := "b" }) (fun s => .ok s)
      "k" "k" { content := "hi" } { sendID := "a", recvID := "b" } "hi"
      rfl rfl (by decide) rfl).1 rfl (by decide),
   (quickSend_role_swap stubQuickClient (fun s => .ok s)
      (fun _ => .ok { sendID := "a", groupID := "g" }) (fun s => .ok s)
      "k" "k" { sendID := "s", content := "hi" } { sendID := "a", groupID := "g" } "hi"
      rfl rfl (by decide) rfl).2 (by decide) (by decide)⟩

/-- C10: in single send and quick send, once the backend has accepted the
submission, a failing delivery-status record call makes the whole operation
return that error — no success payload and no diff are produced, so a
success response requires both the submission and the status-recording call
to succeed. -/
theorem statusRecord_failure_propagates (client : MsgClient) (collab : ContentCollab)
    (now : Int) (e : ApiError)
    (hstatus : ∀ s, client.setSendMsgStatus s = .error e) :
    (∀ (body : SendMsgReqBody) (smr : SendMsgReq) (resp : SendMsgResp),
      getSendMsgReq collab now body.sendMsg = .ok smr →
      client.sendMsg
          { smr with msgData := { smr.msgData with recvID := body.recvID } } = .ok resp →
      sendMessage client collab now true (.ok body) = .error e) ∧
    (∀ (base64Decode : String → Except String String)
        (unmarshalKeyMsgData : String → Except String KeyMsgData)
        (jsonMarshalMarkdown : String → Except String String)
        (encodedKey dd content : String) (req : SendSingleMsgReq) (key : KeyMsgData)
        (resp : SendSimpleMsgResp),
      base64Decode encodedKey = .ok dd →
      unmarshalKeyMsgData dd = .ok key →
      jsonMarshalMarkdown req.content = .ok content →
      key.groupID = "" → key.sendID ≠ "" → key.recvID ≠ "" →
      client.sendSimpleMsg
          { msgData := mkSimpleMsgData key.recvID key.sendID key SingleChatType
              content req } = .ok resp →
      (sendSimpleMessage client base64Decode unmarshalKeyMsgData jsonMarshalMarkdown
          (some encodedKey) (.ok req)).1 = .error e) := by
  constructor
  · intro body smr resp hreq hsend
    simp [sendMessage, hreq, hsend, hstatus MsgSendSuccessed]
  · intro base64Decode unmarshalKeyMsgData jsonMarshalMarkdown encodedKey dd content req
      key resp hb hkey hm hg hsid hrv hsimple
    simp only [sendSimpleMessage, hb, hkey, hm, hg, hsid, hrv]
    simp only [ne_eq, not_true_eq_false, if_false, if_neg hsid, if_neg hrv]
    simp [hsimple, hstatus MsgSendSuccessed]

/-- The msg client stub used by the C10 witness: submissions succeed but the
delivery-status record call always fails. -/
def stubStatusFailClient : MsgClient :=
  { sendMsg := fun _ => .ok {}
    setSendMsgStatus := fun _ => .error (.rpc "status down")
    sendSimpleMsg := fun _ => .ok {} }

/-- The content collaborator stub whose decode and validation always
succeed. -/
def stubCollab : ContentCollab :=
  { weakDecode := fun _ _ => .ok (.textElem "hi")
    validateStruct := fun _ => .ok ()
    getNotificationByID := fun _ => .ok () }

/-- Witness for C10: concrete single-send and quick-send runs where the
backend accepts but status recording fails return the status error. -/
theorem statusRecord_failure_propagates_witness :
    sendMessage stubStatusFailClient stubCollab 7 true
        (.ok { recvID := "u2", sendMsg := { sendID := "u1", contentType := Text } }) =
      .error (.rpc "status down") ∧
    (sendSimpleMessage stubStatusFailClient (fun s => .ok s)
        (fun _ => .ok { sendID := "a", recvID := "b" }) (fun s => .ok s)
        (some "k") (.ok { content := "hi" })).1 = .error (.rpc "status down") :=
  ⟨(statusRecord_failure_propagates stubStatusFailClient stubCollab 7 (.rpc "status down")
      (fun _ => rfl)).1 { recvID := "u2", sendMsg := { sendID := "u1", contentType := Text } }
      (newUserSendMsgReq { sendID := "u1", contentType := Text } (.textElem "hi") 7) {}
      rfl rfl,
   (statusRecord_failure_propagates stubStatusFailClient stubCollab 7 (.rpc "status down")
      (fun _ => rfl)).2 (fun s => .ok s) (fun _ => .ok { sendID := "a", recvID := "b" })
      (fun s => .ok s) "k" "k" "hi" { content := "hi" } { sendID := "a", recvID := "b" } {}
      rfl rfl rfl rfl (by decide) (by decide) rfl⟩

end OpenIM
